import Mathlib

/-!
Shallow embedding of the core of the `bodo` backend: the Result/error model,
the HTTP error-to-status mapping, the token service (issue / verify / rotate /
invalidate backed by an expiring key-value store), the auth service sign-in
flow, the space-hierarchy recursive-CTE resolver, and the inventory
propagation engine.  Side-effecting TypeScript methods are modelled as pure
functions with the store / database passed and returned explicitly; the
current time and freshly generated session ids are explicit parameters.
-/

namespace Bodo

/-! ## Result model (src/shared/domain/result.ts) -/

/-- Discriminated union mirroring the `Result<T, E>` type: `ok` carries the
success value, `err` the domain error. -/
inductive Result (T : Type) (E : Type) where
  | ok (value : T)
  | err (error : E)
  deriving DecidableEq, Repr

/-- Mirrors `isOk()`. -/
def Result.isOk : Result T E → Bool
  | .ok _ => true
  | .err _ => false

/-- Mirrors `isErr()`. -/
def Result.isErr : Result T E → Bool
  | .ok _ => false
  | .err _ => true

/-! ## Domain errors (src/shared/domain/errors.ts, src/features/auth/domain/auth.errors.ts)

Each constructor corresponds to one concrete `DomainError` subclass; the
constructor arguments are the data the subclass stores (`message` where the
class takes a message, identifying fields where the message is interpolated
from them). -/

/-- Closed taxonomy of the `DomainError` subclasses used by the core. -/
inductive DomainError where
  | notFound (resource : String) (id : String)
  | validation (message : String)
  | database (message : String)
  | aiService (message : String)
  | authFailure (message : String)
  | invalidCredentials (message : String)
  | tokenExpired (message : String)
  | invalidToken (message : String)
  | emailAlreadyExists (email : String)
  deriving DecidableEq, Repr

/-- The stable `code` field of each `DomainError` subclass. -/
def DomainError.code : DomainError → String
  | .notFound _ _ => "NOT_FOUND"
  | .validation _ => "VALIDATION_ERROR"
  | .database _ => "DATABASE_ERROR"
  | .aiService _ => "AI_SERVICE_ERROR"
  | .authFailure _ => "AUTHENTICATION_ERROR"
  | .invalidCredentials _ => "INVALID_CREDENTIALS"
  | .tokenExpired _ => "TOKEN_EXPIRED"
  | .invalidToken _ => "INVALID_TOKEN"
  | .emailAlreadyExists _ => "EMAIL_ALREADY_EXISTS"

/-! ## HTTP boundary (src/shared/presentation/http-errors.ts) -/

/-- Mirrors `errorToStatus`: the if-chain over `error.code`. -/
def errorToStatus (error : DomainError) : Nat :=
  if error.code = "VALIDATION_ERROR" then 400
  else if error.code = "NOT_FOUND" then 404
  else if error.code = "DATABASE_ERROR" then 500
  else if error.code = "AI_SERVICE_ERROR" then 500
  else 500

/-! ## JWT model (hono/jwt as used by src/features/auth/infrastructure/token.service.ts)

A token is either a well-formed JWT (a payload plus a signature string) or a
string that does not decode.  `mockSign` stands for deterministic HMAC
signing: two tokens signed with the same secret and payload are identical
strings, as with HS256.  The optional payload fields mirror the fact that a
decoded JWT payload may lack any claim (the TypeScript code reads them
through unchecked casts). -/

/-- Renders an optional number the way JS string interpolation renders a
possibly-undefined value. -/
def optNatStr : Option Nat → String
  | some n => toString n
  | none => "undefined"

/-- Renders an optional string the way JS string interpolation renders a
possibly-undefined value. -/
def optStrStr : Option String → String
  | some s => s
  | none => "undefined"

/-- Decoded JWT payload with the claims this service uses. -/
structure JwtPayload where
  sub : Option Nat
  jti : Option String
  iat : Option Nat
  exp : Option Nat
  deriving DecidableEq, Repr

/-- Deterministic signature of a payload under a secret (stands for HMAC). -/
def mockSign (secret : String) (p : JwtPayload) : String :=
  secret ++ "#" ++ optNatStr p.sub ++ "#" ++ optStrStr p.jti ++ "#" ++
    optNatStr p.iat ++ "#" ++ optNatStr p.exp

/-- An opaque token string: a signed JWT, a string whose parts decode but
carry a nullish payload (such as a payload part holding JSON null), or a
string that does not decode at all. -/
inductive Token where
  | signed (payload : JwtPayload) (sig : String)
  | nullishPayload (raw : String)
  | malformed (raw : String)
  deriving DecidableEq, Repr

/-- Mirrors hono `decode(token)`: extracts the payload without any signature
or expiry verification.  Decoding a string whose parts do not base64/JSON
decode THROWS in hono (modelled as `Except.error` carrying the raw string);
a decodable token may still produce a nullish payload (`ok none`). -/
def decodeToken : Token → Except String (Option JwtPayload)
  | .signed p _ => .ok (some p)
  | .nullishPayload _ => .ok none
  | .malformed raw => .error raw

/-- Failure modes of hono `verify(token, secret)`: a structural/signature
failure or a thrown token-expired error. -/
inductive JwtVerifyError where
  | invalidSignature
  | tokenExpired
  deriving DecidableEq, Repr

/-- Mirrors hono `verify(token, secret)`: checks structure and signature,
then rejects a token whose `exp` claim is in the past. -/
def honoVerify (secret : String) (t : Token) (now : Nat) :
    Except JwtVerifyError JwtPayload :=
  match t with
  | .malformed _ => .error .invalidSignature
  | .nullishPayload _ => .error .invalidSignature
  | .signed p sig =>
    if sig ≠ mockSign secret p then .error .invalidSignature
    else
      match p.exp with
      | some e => if e < now then .error .tokenExpired else .ok p
      | none => .ok p

/-! ## Redis-backed refresh-token store

The expiring key-value store keyed by strings.  The stored value is the
Argon2 hash of a refresh token; since Argon2 verification succeeds exactly
when the presented string equals the hashed input (ignoring collisions), the
hash is modelled as a wrapper remembering its input.  TTL-driven expiry is
outside the model (no claim lets wall-clock time pass between operations);
the TTL argument is recorded on the entry as written. -/

/-- One-way Argon2 hash of a token string. -/
structure ArgonHash where
  input : Token
  deriving DecidableEq, Repr

/-- Mirrors `argon2.verify(storedHash, presented)` for tokens. -/
def argonVerifyTok (h : ArgonHash) (t : Token) : Bool :=
  h.input = t

/-- One store entry: key, stored hash, and the TTL it was written with. -/
structure StoreEntry where
  key : String
  value : ArgonHash
  ttl : Nat
  deriving DecidableEq, Repr

/-- The refresh-token store state. -/
abbrev RedisStore := List StoreEntry

/-- Mirrors `redis.get(key)`. -/
def redisGet (store : RedisStore) (k : String) : Option ArgonHash :=
  (store.find? (fun e => e.key = k)).map (·.value)

/-- Mirrors `redis.setEx(key, ttl, value)`: sets the key, replacing any
previous entry. -/
def redisSetEx (store : RedisStore) (k : String) (ttl : Nat) (v : ArgonHash) :
    RedisStore :=
  ⟨k, v, ttl⟩ :: store.filter (fun e => ¬ e.key = k)

/-- Mirrors `redis.del(key)`: returns the number of deleted entries and the
remaining store. -/
def redisDel (store : RedisStore) (k : String) : Nat × RedisStore :=
  ((store.filter (fun e => e.key = k)).length,
    store.filter (fun e => ¬ e.key = k))

/-! ## Token service (src/features/auth/infrastructure/token.service.ts) -/

/-- Access token TTL: 15 minutes in seconds. -/
def ACCESS_TOKEN_EXPIRY_SECONDS : Nat := 15 * 60

/-- Refresh token TTL: 7 days in seconds. -/
def REFRESH_TOKEN_EXPIRY_SECONDS : Nat := 7 * 24 * 60 * 60

/-- Mirrors `getRefreshTokenKey(userId, sessionId)`; the arguments are
optional because the call sites feed it values read through unchecked
casts, which JS interpolates as `undefined` when absent. -/
def getRefreshTokenKey (userId : Option Nat) (sessionId : Option String) :
    String :=
  "refresh_token:" ++ optNatStr userId ++ ":" ++ optStrStr sessionId

/-- The `{accessToken, refreshToken}` pair. -/
structure TokenPair where
  accessToken : Token
  refreshToken : Token
  deriving DecidableEq, Repr

/-- Mirrors `TokenService.generateTokenPair(userId, sessionId?)`.  `now` is
`Math.floor(Date.now() / 1000)` and `freshSessionId` the KSUID that
`generateSessionId()` would produce when no session id is supplied.  Returns
the result together with the store after the `setEx` write. -/
def generateTokenPair (secret : String) (store : RedisStore)
    (userId : Option Nat) (sessionId : Option String) (now : Nat)
    (freshSessionId : String) :
    Result TokenPair DomainError × RedisStore :=
  let jti := sessionId.getD freshSessionId
  let accessPayload : JwtPayload :=
    ⟨userId, some jti, some now, some (now + ACCESS_TOKEN_EXPIRY_SECONDS)⟩
  let refreshPayload : JwtPayload :=
    ⟨userId, some jti, some now, some (now + REFRESH_TOKEN_EXPIRY_SECONDS)⟩
  let accessToken := Token.signed accessPayload (mockSign secret accessPayload)
  let refreshToken :=
    Token.signed refreshPayload (mockSign secret refreshPayload)
  let refreshTokenHash : ArgonHash := ⟨refreshToken⟩
  let redisKey := getRefreshTokenKey userId (some jti)
  let store' :=
    redisSetEx store redisKey REFRESH_TOKEN_EXPIRY_SECONDS refreshTokenHash
  (.ok ⟨accessToken, refreshToken⟩, store')

/-- The re-check `payload.exp && payload.exp < now` both verify methods run
after hono verify, with JS truthiness: an absent or zero `exp` skips it. -/
def jsExpExpired (exp : Option Nat) (now : Nat) : Bool :=
  match exp with
  | some e => (e != 0) && decide (e < now)
  | none => false

/-- Mirrors `TokenService.verifyAccessToken(token)`: hono verify, then the
method re-checks the expiry itself. -/
def verifyAccessToken (secret : String) (t : Token) (now : Nat) :
    Result JwtPayload DomainError :=
  match honoVerify secret t now with
  | .error .tokenExpired => .err (.tokenExpired "Access token has expired")
  | .error .invalidSignature => .err (.invalidToken "Invalid access token")
  | .ok payload =>
    if jsExpExpired payload.exp now then
      .err (.tokenExpired "Access token has expired")
    else .ok payload

/-- Mirrors `TokenService.verifyRefreshToken(token)`: hono verify, the same
expiry re-check, then the Redis lookup under the key built from the decoded
`sub` and `jti`, and finally the Argon2 comparison of the presented token
against the stored hash. -/
def verifyRefreshToken (secret : String) (store : RedisStore) (t : Token)
    (now : Nat) : Result JwtPayload DomainError :=
  match honoVerify secret t now with
  | .error .tokenExpired => .err (.tokenExpired "Refresh token has expired")
  | .error .invalidSignature => .err (.invalidToken "Invalid refresh token")
  | .ok payload =>
    if jsExpExpired payload.exp now then
      .err (.tokenExpired "Refresh token has expired")
    else
      match redisGet store (getRefreshTokenKey payload.sub payload.jti) with
      | none => .err (.invalidToken "Refresh token not found or already revoked")
      | some storedHash =>
        if argonVerifyTok storedHash t then .ok payload
        else .err (.invalidToken "Refresh token mismatch")

/-- Mirrors `TokenService.invalidateRefreshToken(token)`: decode only (no
signature or expiry verification); a nullish payload or one without a
numeric `sub` and string `jti` yields the format `InvalidTokenError`;
deleting zero rows yields the not-found `InvalidTokenError`.  When `decode`
itself throws (undecodable string), the thrown hono error is not an
`InvalidTokenError`, so the catch-all wraps it into a `DatabaseError`. -/
def invalidateRefreshToken (store : RedisStore) (t : Token) :
    Result Bool DomainError × RedisStore :=
  match decodeToken t with
  | .error _ =>
    (.err (.database "Failed to invalidate refresh token"), store)
  | .ok none => (.err (.invalidToken "Invalid token format"), store)
  | .ok (some payload) =>
    match payload.sub, payload.jti with
    | some userId, some sessionId =>
      let r := redisDel store (getRefreshTokenKey (some userId) (some sessionId))
      if r.1 = 0 then
        (.err (.invalidToken "Refresh token not found or already invalidated"), r.2)
      else (.ok true, r.2)
    | _, _ => (.err (.invalidToken "Invalid token format"), store)

/-! ## Auth service (src/features/auth/infrastructure/auth.service.ts)

The user repository is modelled as the list of rows of the `users` table;
`findByEmail` mirrors the Kysely query (email equality plus the soft-delete
filter `deleted_at is null`).  Password hashing mirrors Argon2 the same way
token hashing does. -/

/-- One-way Argon2 hash of a password string. -/
structure PasswordHash where
  input : String
  deriving DecidableEq, Repr

/-- Mirrors `argon2.verify(storedHash, presented)` for passwords. -/
def argonVerifyPw (h : PasswordHash) (pw : String) : Bool :=
  h.input = pw

/-- One row of the `users` table as the auth service sees it (the stored
`password` is an Argon2 hash). -/
structure AuthUser where
  id : Nat
  name : String
  email : String
  password : PasswordHash
  deletedAt : Option Nat
  deriving DecidableEq, Repr

/-- Mirrors `UserRepository.findByEmail`: first row matching the email whose
`deleted_at` is null. -/
def findByEmail (users : List AuthUser) (email : String) : Option AuthUser :=
  users.find? (fun u => u.email = email && u.deletedAt = none)

/-- The sign-in DTO. -/
structure SignInDTO where
  email : String
  password : String
  deriving DecidableEq, Repr

/-- Mirrors `AuthService.signIn(data)`: look the user up by email (absent
user and wrong password both produce the default `InvalidCredentialsError`),
verify the password hash, then issue a token pair. -/
def signIn (secret : String) (users : List AuthUser) (store : RedisStore)
    (data : SignInDTO) (now : Nat) (freshSessionId : String) :
    Result TokenPair DomainError × RedisStore :=
  match findByEmail users data.email with
  | none => (.err (.invalidCredentials "Invalid email or password"), store)
  | some user =>
    if argonVerifyPw user.password data.password then
      generateTokenPair secret store (some user.id) none now freshSessionId
    else (.err (.invalidCredentials "Invalid email or password"), store)

/-- Mirrors `AuthService.refresh(data)`: verify the refresh token, invalidate
it (any failure of the invalidation is deliberately ignored), then issue a
new pair with the same `sub` and `jti` for session continuity. -/
def refresh (secret : String) (store : RedisStore) (refreshToken : Token)
    (now : Nat) (freshSessionId : String) :
    Result TokenPair DomainError × RedisStore :=
  match verifyRefreshToken secret store refreshToken now with
  | .err e => (.err e, store)
  | .ok payload =>
    let invalidated := invalidateRefreshToken store refreshToken
    generateTokenPair secret invalidated.2 payload.sub payload.jti now
      freshSessionId

/-! ## Space hierarchy resolver
(src/features/inventories/infrastructure/inventory.repository.ts,
`SpaceLookupService.findChildrenIds`)

The recursive CTE built with `withRecursive` / `unionAll` is modelled by its
standard iterated-working-table semantics: the working table starts as the
rows with `id = spaceId`; each round the next working table is every row
whose `parent_id` lies in the current one (UNION ALL: bag semantics, no
deduplication); all rows ever produced are accumulated; the query ends when
a round produces no rows.  `fuel` bounds the number of rounds evaluated:
`none` means the query has not reached an empty working table within `fuel`
rounds — with unbounded fuel, never. -/

/-- One row of the `spaces` table (the columns the CTE touches). -/
structure SpaceRow where
  id : Nat
  parentId : Option Nat
  deriving DecidableEq, Repr

/-- One CTE round: ids of all rows whose `parent_id` is in the frontier. -/
def cteStep (spaces : List SpaceRow) (frontier : List Nat) : List Nat :=
  (spaces.filter (fun s =>
    match s.parentId with
    | some p => frontier.contains p
    | none => false)).map (·.id)

/-- Iterates CTE rounds, accumulating every produced row, until the working
table is empty or the fuel runs out. -/
def cteRun (spaces : List SpaceRow) :
    Nat → List Nat → List Nat → Option (List Nat)
  | fuel, frontier, acc =>
    if frontier.isEmpty then some acc
    else
      match fuel with
      | 0 => none
      | fuel' + 1 =>
        let nxt := cteStep spaces frontier
        cteRun spaces fuel' nxt (acc ++ nxt)

/-- The recursive CTE of `findChildrenIds`, with the final
`where id != spaceId` filter, evaluated with `fuel` rounds. -/
def cteDescendants (spaces : List SpaceRow) (spaceId : Nat) (fuel : Nat) :
    Option (List Nat) :=
  let base := (spaces.filter (fun s => s.id = spaceId)).map (·.id)
  (cteRun spaces fuel base base).map (fun rows =>
    rows.filter (fun i => ¬ i = spaceId))

/-- Mirrors `SpaceLookupService.findChildrenIds(spaceId)`: evaluates the CTE
with enough rounds for any acyclic table (`none` models a query that never
terminates). -/
def findChildrenIds (spaces : List SpaceRow) (spaceId : Nat) :
    Option (List Nat) :=
  cteDescendants spaces spaceId (spaces.length + 1)

/-! ## Inventory repository and propagation engine
(src/features/inventories/infrastructure/inventory.repository.ts and the
`InventoryService` of the inventories feature)

The `inventories` table is the list of its rows; `created_at` / `updated_at`
timestamps are outside the model (no claim mentions them). -/

/-- One row of the `inventories` table (the columns propagation touches). -/
structure InventoryRow where
  itemId : Nat
  itemType : String
  spaceId : Option Nat
  spaceType : String
  name : Option String
  code : Option String
  sku : Option String
  balance : String
  costPerUnit : String
  status : Option String
  notes : Option String
  modelType : Option String
  parentType : Option String
  deriving DecidableEq, Repr

/-- Mirrors the `CreateInventoryBatchData` interface. -/
structure CreateInventoryBatchData where
  itemId : Nat
  itemType : String
  spaceId : Nat
  spaceType : String
  name : Option String
  code : Option String
  sku : Option String
  costPerUnit : Option String
  status : Option String
  notes : Option String
  modelType : Option String
  parentType : Option String
  deriving DecidableEq, Repr

/-- Mirrors `InventoryRepository.findExistingSpaceIds(itemId, spaceIds)`:
the set of space ids among `spaceIds` that already hold a record for the
item (SQL `IN` never matches a null `space_id`). -/
def findExistingSpaceIds (itemId : Nat) (spaceIds : List Nat)
    (db : List InventoryRow) : List Nat :=
  if spaceIds.isEmpty then []
  else
    db.filterMap (fun r =>
      match r.spaceId with
      | some s => if r.itemId = itemId ∧ spaceIds.contains s then some s else none
      | none => none)

/-- Row built by `InventoryRepository.createBatch` from one batch datum:
`balance` is the literal string zero and a null `costPerUnit` defaults to
the string zero. -/
def batchDataToRow (inv : CreateInventoryBatchData) : InventoryRow :=
  { itemId := inv.itemId
    itemType := inv.itemType
    spaceId := some inv.spaceId
    spaceType := inv.spaceType
    name := inv.name
    code := inv.code
    sku := inv.sku
    balance := "0"
    costPerUnit := inv.costPerUnit.getD "0"
    status := inv.status
    notes := inv.notes
    modelType := inv.modelType
    parentType := inv.parentType }

/-- Mirrors `InventoryRepository.createBatch(inventories)`: short-circuits on
an empty batch, otherwise inserts all rows and returns their count. -/
def createBatch (inventories : List CreateInventoryBatchData)
    (db : List InventoryRow) : Nat × List InventoryRow :=
  if inventories.isEmpty then (0, db)
  else (inventories.length, db ++ inventories.map batchDataToRow)

/-- Mirrors the `ItemForPropagation` interface. -/
structure ItemForPropagation where
  id : Nat
  name : String
  code : Option String
  sku : Option String
  cost : Option String
  status : String
  notes : Option String
  spaceId : Option Nat
  spaceType : Option String
  deriving DecidableEq, Repr

/-- The batch datum `propagateToChildSpaces` pushes for one child space
that lacks an inventory record. -/
def propagationBatchData (item : ItemForPropagation) (c : Nat) :
    CreateInventoryBatchData :=
  { itemId := item.id
    itemType := "ITM"
    spaceId := c
    spaceType := item.spaceType.getD "SPACE"
    name := some item.name
    code := item.code
    sku := item.sku
    costPerUnit := item.cost
    status := some item.status
    notes := item.notes
    modelType := some "SUP"
    parentType := some "IVT" }

/-- The `newInventories` list the propagation loop builds: one batch datum
per child space whose id is not in the existing-record set. -/
def newInventoriesFor (item : ItemForPropagation) (childrenIds : List Nat)
    (db : List InventoryRow) : List CreateInventoryBatchData :=
  (childrenIds.filter
      (fun c => ¬ (findExistingSpaceIds item.id childrenIds db).contains c)).map
    (propagationBatchData item)

/-- Mirrors `InventoryService.propagateToChildSpaces(item)` as a function of
the `spaces` table, the `inventories` table and the item; returns the
`updatedCount` and the table after the batch insert (`none` when the
descendant query never terminates).  The guard `!item.spaceId` is JS
truthiness, so a `spaceId` of `0` is treated like an absent one. -/
def propagateToChildSpaces (spaces : List SpaceRow) (db : List InventoryRow)
    (item : ItemForPropagation) : Option (Nat × List InventoryRow) :=
  match item.spaceId with
  | none => some (0, db)
  | some sid =>
    if sid = 0 then some (0, db)
    else
      match findChildrenIds spaces sid with
      | none => none
      | some childrenIds =>
        if childrenIds.isEmpty then some (0, db)
        else
          if (newInventoriesFor item childrenIds db).isEmpty then some (0, db)
          else some (createBatch (newInventoriesFor item childrenIds db) db)

/-! ## Theorems -/

/-- C1, counterexample: `errorToStatus` maps the auth-specific codes
(`INVALID_CREDENTIALS`, `TOKEN_EXPIRED`, `INVALID_TOKEN`,
`EMAIL_ALREADY_EXISTS`, `AUTHENTICATION_ERROR`) to 500, not to 401 as the
claim states. -/
theorem C1_counterexample_auth_codes_not_401 :
    errorToStatus (DomainError.invalidCredentials "Invalid email or password") ≠ 401 ∧
    errorToStatus (DomainError.invalidCredentials "Invalid email or password") = 500 ∧
    errorToStatus (DomainError.tokenExpired "Token has expired") = 500 ∧
    errorToStatus (DomainError.invalidToken "Invalid token") = 500 ∧
    errorToStatus (DomainError.emailAlreadyExists "a@b.com") = 500 ∧
    errorToStatus (DomainError.authFailure "Authentication failed") = 500 := by
  refine ⟨by decide, rfl, rfl, rfl, rfl, rfl⟩

/-- C1, amended: the HTTP-boundary mapping returns 400 for
`VALIDATION_ERROR`, 404 for `NOT_FOUND`, and 500 for every other code —
including all five auth-specific codes, which do NOT get 401. -/
theorem C1_amended_error_status_map (e : DomainError) :
    (e.code = "VALIDATION_ERROR" → errorToStatus e = 400) ∧
    (e.code = "NOT_FOUND" → errorToStatus e = 404) ∧
    ((e.code = "INVALID_CREDENTIALS" ∨ e.code = "TOKEN_EXPIRED" ∨
        e.code = "INVALID_TOKEN" ∨ e.code = "EMAIL_ALREADY_EXISTS" ∨
        e.code = "AUTHENTICATION_ERROR") →
      errorToStatus e = 500) ∧
    (e.code ≠ "VALIDATION_ERROR" → e.code ≠ "NOT_FOUND" →
      errorToStatus e = 500) := by
  cases e <;> simp [errorToStatus, DomainError.code]

/-- C1, witness: the amended mapping evaluated on a validation error and on
an invalid-credentials error. -/
theorem C1_amended_error_status_map_witness :
    errorToStatus (DomainError.validation "bad input") = 400 ∧
    errorToStatus (DomainError.invalidCredentials "Invalid email or password") = 500 := by
  refine ⟨(C1_amended_error_status_map _).1 rfl,
    (C1_amended_error_status_map
      (DomainError.invalidCredentials "Invalid email or password")).2.2.1 (Or.inl rfl)⟩

/-- C10: an item whose `spaceId` is null propagates to nothing — the result
is `updatedCount = 0` and the inventories table is returned unchanged (no
write is performed). -/
theorem C10_propagate_noop_on_unassigned (spaces : List SpaceRow)
    (db : List InventoryRow) (item : ItemForPropagation)
    (h : item.spaceId = none) :
    propagateToChildSpaces spaces db item = some (0, db) := by
  unfold propagateToChildSpaces
  rw [h]

/-- C10, witness: the no-op evaluated on a concrete unassigned item over a
concrete table. -/
theorem C10_propagate_noop_on_unassigned_witness :
    propagateToChildSpaces [⟨1, none⟩]
      [⟨9, "ITM", some 1, "SPACE", none, none, none, "0", "1.50", none, none,
        some "SUP", some "IVT"⟩]
      ⟨42, "Widget", none, none, some "9.99", "ACTIVE", none, none, none⟩ =
      some (0,
        [⟨9, "ITM", some 1, "SPACE", none, none, none, "0", "1.50", none, none,
          some "SUP", some "IVT"⟩]) :=
  C10_propagate_noop_on_unassigned _ _ _ rfl

/-- The concrete space tree of the C5 scenario: root 1 → child 2 →
grandchild 3. -/
def spaces5 : List SpaceRow := [⟨1, none⟩, ⟨2, some 1⟩, ⟨3, some 2⟩]

/-- The concrete item of the C5 scenario. -/
def item5 : ItemForPropagation :=
  ⟨42, "Widget", none, none, some "9.99", "ACTIVE", none, some 1, none⟩

/-- The inventory row propagation creates for space 2 in the C5 scenario. -/
def row5space2 : InventoryRow :=
  ⟨42, "ITM", some 2, "SPACE", some "Widget", none, none, "0", "9.99",
    some "ACTIVE", none, some "SUP", some "IVT"⟩

/-- The inventory row propagation creates for space 3 in the C5 scenario. -/
def row5space3 : InventoryRow :=
  ⟨42, "ITM", some 3, "SPACE", some "Widget", none, none, "0", "9.99",
    some "ACTIVE", none, some "SUP", some "IVT"⟩

/-- C5: on the tree root(1) → child(2) → grandchild(3) with item 42 in
space 1 at cost 9.99 and an empty inventories table, propagation returns
`updatedCount = 2` and inserts rows exactly for spaces 2 and 3 (not 1),
each with balance the string 0 and `costPerUnit` the string 9.99. -/
theorem C5_concrete_propagation_scenario :
    propagateToChildSpaces spaces5 [] item5 = some (2, [row5space2, row5space3]) ∧
    row5space2.spaceId = some 2 ∧ row5space3.spaceId = some 3 ∧
    row5space2.balance = "0" ∧ row5space3.balance = "0" ∧
    row5space2.costPerUnit = "9.99" ∧ row5space3.costPerUnit = "9.99" := by
  refine ⟨by decide, rfl, rfl, rfl, rfl, rfl, rfl⟩

/-- A spaces table with a parent-child cycle between spaces 1 and 2. -/
def cycleSpaces : List SpaceRow := [⟨1, some 2⟩, ⟨2, some 1⟩]

/-- On the 1 ↔ 2 cycle the CTE working table alternates between space 1 and
space 2 and never becomes empty, so no amount of fuel finishes the run. -/
theorem cteRun_cycleSpaces_none (fuel : Nat) : ∀ acc : List Nat,
    cteRun cycleSpaces fuel [1] acc = none ∧
    cteRun cycleSpaces fuel [2] acc = none := by
  induction fuel with
  | zero => intro acc; exact ⟨rfl, rfl⟩
  | succ n ih =>
    intro acc
    refine ⟨?_, ?_⟩
    · have h : cteRun cycleSpaces (n + 1) [1] acc =
          cteRun cycleSpaces n [2] (acc ++ [2]) := rfl
      rw [h]
      exact (ih (acc ++ [2])).2
    · have h : cteRun cycleSpaces (n + 1) [2] acc =
          cteRun cycleSpaces n [1] (acc ++ [1]) := rfl
      rw [h]
      exact (ih (acc ++ [1])).1

/-- C3: the recursive-CTE traversal of `findChildrenIds` has no visited-set
or bounded-iteration guard — on the (disallowed) parent-child cycle
1 ↔ 2 it never reaches an empty working table, i.e. for every iteration
bound the run is still unfinished, so the query loops forever. -/
theorem C3_findChildrenIds_diverges_on_cycle (fuel : Nat) :
    cteDescendants cycleSpaces 1 fuel = none := by
  have hbase : cteDescendants cycleSpaces 1 fuel =
      (cteRun cycleSpaces fuel [1] [1]).map
        (fun rows => rows.filter (fun i => ¬ i = 1)) := rfl
  rw [hbase, (cteRun_cycleSpaces_none fuel [1]).1]
  rfl

/-! ### Store and verification helper lemmas -/

/-- A key just written by `setEx` reads back as the written value. -/
theorem redisGet_setEx_self (store : RedisStore) (k : String) (ttl : Nat)
    (v : ArgonHash) : redisGet (redisSetEx store k ttl v) k = some v := by
  simp [redisGet, redisSetEx]

/-- Deleting a key makes a subsequent `get` of it return nothing. -/
theorem redisGet_del_self (store : RedisStore) (k : String) :
    redisGet (redisDel store k).2 k = none := by
  simp only [redisGet, redisDel, Option.map_eq_none', List.find?_eq_none,
    List.mem_filter]
  intro e he
  simpa using he.2

/-- When `get` finds the key, `del` deletes at least one row. -/
theorem redisDel_count_ne_zero (store : RedisStore) (k : String)
    (h : ArgonHash) (hget : redisGet store k = some h) :
    (redisDel store k).1 ≠ 0 := by
  simp only [redisGet, Option.map_eq_some'] at hget
  obtain ⟨e, hfind, _⟩ := hget
  have hmem := List.mem_of_find?_eq_some hfind
  have hkey : e.key = k := by simpa using List.find?_some hfind
  have hfil : e ∈ store.filter (fun e => (e.key = k : Bool)) :=
    List.mem_filter.mpr ⟨hmem, by simp [hkey]⟩
  simp only [redisDel, ne_eq, List.length_eq_zero]
  intro hnil
  rw [hnil] at hfil
  exact List.not_mem_nil e hfil

/-- When `get` misses the key, `del` deletes zero rows. -/
theorem redisDel_count_zero (store : RedisStore) (k : String)
    (hget : redisGet store k = none) : (redisDel store k).1 = 0 := by
  simp only [redisGet, Option.map_eq_none', List.find?_eq_none] at hget
  simp only [redisDel, List.length_eq_zero, List.filter_eq_nil_iff]
  intro e he
  simpa using hget e he

/-- A token signed with the service secret and not past its expiry passes
hono verification. -/
theorem honoVerify_signed_self (secret : String) (p : JwtPayload) (now : Nat)
    (hexp : ∀ e, p.exp = some e → ¬ e < now) :
    honoVerify secret (.signed p (mockSign secret p)) now = .ok p := by
  unfold honoVerify
  cases hp : p.exp with
  | some e => simp [hp, hexp e hp]
  | none => simp [hp]

/-- A payload not past its expiry also passes the methods' own re-check. -/
theorem jsExpExpired_false (p : JwtPayload) (now : Nat)
    (hexp : ∀ e, p.exp = some e → ¬ e < now) :
    jsExpExpired p.exp now = false := by
  cases hp : p.exp with
  | some e => simp [jsExpExpired, hexp e hp]
  | none => rfl

/-- Everything a successful refresh-token verification guarantees: hono
verification succeeded, the expiry re-check passed, and the store holds the
hash of exactly the presented token under the payload's key. -/
theorem verifyRefreshToken_ok_elim (secret : String) (store : RedisStore)
    (t : Token) (now : Nat) (p : JwtPayload)
    (h : verifyRefreshToken secret store t now = .ok p) :
    honoVerify secret t now = .ok p ∧
    jsExpExpired p.exp now = false ∧
    redisGet store (getRefreshTokenKey p.sub p.jti) = some ⟨t⟩ := by
  unfold verifyRefreshToken at h
  cases hv : honoVerify secret t now with
  | error e => rw [hv] at h; cases e <;> simp at h
  | ok payload =>
    rw [hv] at h
    simp only at h
    by_cases hexp : jsExpExpired payload.exp now
    · simp [hexp] at h
    · simp only [hexp, Bool.false_eq_true, if_false] at h
      cases hg : redisGet store (getRefreshTokenKey payload.sub payload.jti) with
      | none => rw [hg] at h; simp at h
      | some sh =>
        rw [hg] at h
        by_cases hA : argonVerifyTok sh t
        · simp only [hA, if_true, Result.ok.injEq] at h
          subst h
          have hsh : sh = ⟨t⟩ := by
            cases sh
            simpa [argonVerifyTok] using hA
          exact ⟨rfl, by simpa using hexp, by rw [hg, hsh]⟩
        · simp [hA] at h

/-- When the stored hash under the payload's key is the hash of a different
token, refresh-token verification fails with the mismatch
`InvalidTokenError`. -/
theorem verifyRefreshToken_mismatch (secret : String) (store : RedisStore)
    (t : Token) (now : Nat) (p : JwtPayload) (h : ArgonHash)
    (hok : honoVerify secret t now = .ok p)
    (hnexp : jsExpExpired p.exp now = false)
    (hget : redisGet store (getRefreshTokenKey p.sub p.jti) = some h)
    (hmis : ¬ h.input = t) :
    verifyRefreshToken secret store t now =
      .err (.invalidToken "Refresh token mismatch") := by
  unfold verifyRefreshToken
  rw [hok]
  simp [hnexp, hget, argonVerifyTok, hmis]

/-- C4: sign-in with an unknown email and sign-in with a known email but a
wrong password produce the very same `InvalidCredentialsError` value, hence
in particular the identical `INVALID_CREDENTIALS` code — the two failures
are indistinguishable by error. -/
theorem C4_signin_error_uniformity (secret : String) (users : List AuthUser)
    (store : RedisStore) (now : Nat) (fresh : String)
    (email1 pw1 email2 pw2 : String) (u : AuthUser)
    (h1 : findByEmail users email1 = none)
    (h2 : findByEmail users email2 = some u)
    (h3 : argonVerifyPw u.password pw2 = false) :
    (signIn secret users store ⟨email1, pw1⟩ now fresh).1 =
      .err (.invalidCredentials "Invalid email or password") ∧
    (signIn secret users store ⟨email2, pw2⟩ now fresh).1 =
      .err (.invalidCredentials "Invalid email or password") ∧
    DomainError.code (.invalidCredentials "Invalid email or password") =
      "INVALID_CREDENTIALS" := by
  refine ⟨?_, ?_, rfl⟩
  · unfold signIn
    rw [h1]
  · unfold signIn
    rw [h2]
    simp [h3]

/-- The single-user table of the C4 witness: Alice, whose stored hash is of
the password `correct`. -/
def usersC4 : List AuthUser := [⟨1, "Alice", "a@b.com", ⟨"correct"⟩, none⟩]

/-- C4, witness: the uniformity theorem evaluated on a concrete user table,
an unregistered email, and a wrong password for a registered email. -/
theorem C4_signin_error_uniformity_witness :
    (signIn "secret" usersC4 [] ⟨"nobody@b.com", "pw"⟩ 100 "sid").1 =
      .err (.invalidCredentials "Invalid email or password") ∧
    (signIn "secret" usersC4 [] ⟨"a@b.com", "wrong"⟩ 100 "sid").1 =
      .err (.invalidCredentials "Invalid email or password") := by
  have h := C4_signin_error_uniformity "secret" usersC4 [] 100 "sid"
    "nobody@b.com" "pw" "a@b.com" "wrong" ⟨1, "Alice", "a@b.com", ⟨"correct"⟩, none⟩
    (by decide) (by decide) (by decide)
  exact ⟨h.1, h.2.1⟩

/-- C7: `invalidateRefreshToken` never checks the signature or the expiry —
for any token that decodes to a payload with numeric `sub` and string `jti`
whose store entry exists, it returns `ok true` and deletes the entry, no
matter what the signature string is and no matter the `exp` claim; a forged
but well-formed token therefore revokes a legitimate session. -/
theorem C7_invalidate_accepts_forged_token (store : RedisStore)
    (p : JwtPayload) (sig : String) (u : Nat) (s : String) (h : ArgonHash)
    (hsub : p.sub = some u) (hjti : p.jti = some s)
    (hentry : redisGet store (getRefreshTokenKey (some u) (some s)) = some h) :
    (invalidateRefreshToken store (Token.signed p sig)).1 = .ok true ∧
    redisGet (invalidateRefreshToken store (Token.signed p sig)).2
      (getRefreshTokenKey (some u) (some s)) = none := by
  have hcount := redisDel_count_ne_zero store
    (getRefreshTokenKey (some u) (some s)) h hentry
  have hdel := redisGet_del_self store (getRefreshTokenKey (some u) (some s))
  unfold invalidateRefreshToken
  simp only [decodeToken, hsub, hjti]
  simp [hcount, hdel]

/-- The store of the C7 witness: one session entry for user 7, session
`sess`, holding the hash of the legitimately signed refresh token. -/
def storeC7 : RedisStore :=
  [⟨getRefreshTokenKey (some 7) (some "sess"),
    ⟨Token.signed ⟨some 7, some "sess", some 100, some 700⟩ "legitimate"⟩,
    604800⟩]

/-- C7, witness: a token for the same (user, session) with a bogus signature
and an `exp` of 0 (long past) still revokes the stored session. -/
theorem C7_invalidate_accepts_forged_token_witness :
    (invalidateRefreshToken storeC7
      (Token.signed ⟨some 7, some "sess", some 0, some 0⟩ "forged")).1 =
      .ok true ∧
    redisGet (invalidateRefreshToken storeC7
        (Token.signed ⟨some 7, some "sess", some 0, some 0⟩ "forged")).2
      (getRefreshTokenKey (some 7) (some "sess")) = none :=
  C7_invalidate_accepts_forged_token storeC7 ⟨some 7, some "sess", some 0, some 0⟩
    "forged" 7 "sess"
    ⟨Token.signed ⟨some 7, some "sess", some 100, some 700⟩ "legitimate"⟩
    rfl rfl (by decide)

/-- C8, counterexample: for a token string that cannot be decoded at all,
hono `decode` throws and the catch-all wraps the thrown error into a
`DatabaseError` — not an `InvalidTokenError` as the claim states. -/
theorem C8_counterexample_undecodable_gives_database_error :
    (invalidateRefreshToken [] (Token.malformed "garbage")).1 =
      .err (.database "Failed to invalidate refresh token") ∧
    DomainError.code (.database "Failed to invalidate refresh token") ≠
      "INVALID_TOKEN" := by
  refine ⟨rfl, by decide⟩

/-- C8, amended: `invalidateRefreshToken` fails with the format
`InvalidTokenError` when the token decodes without error to a nullish
payload or to one lacking a numeric `sub` or string `jti`, and with the
not-found `InvalidTokenError` when the decoded (userId, sessionId) has no
store entry (the delete removes zero rows); but a token on which decoding
itself throws is wrapped into a `DatabaseError` instead. -/
theorem C8_amended_invalidate_error_cases (store : RedisStore) (t : Token) :
    ((∃ e, decodeToken t = .error e) →
      (invalidateRefreshToken store t).1 =
        .err (.database "Failed to invalidate refresh token")) ∧
    (decodeToken t = .ok none →
      (invalidateRefreshToken store t).1 =
        .err (.invalidToken "Invalid token format")) ∧
    (∀ p, decodeToken t = .ok (some p) → p.sub = none ∨ p.jti = none →
      (invalidateRefreshToken store t).1 =
        .err (.invalidToken "Invalid token format")) ∧
    (∀ p u s, decodeToken t = .ok (some p) → p.sub = some u →
      p.jti = some s →
      redisGet store (getRefreshTokenKey (some u) (some s)) = none →
      (invalidateRefreshToken store t).1 =
        .err (.invalidToken "Refresh token not found or already invalidated")) := by
  refine ⟨?_, ?_, ?_, ?_⟩
  · rintro ⟨e, hdec⟩
    unfold invalidateRefreshToken
    rw [hdec]
  · intro hdec
    unfold invalidateRefreshToken
    rw [hdec]
  · intro p hdec hmiss
    unfold invalidateRefreshToken
    rw [hdec]
    rcases hmiss with h1 | h1
    · simp [h1]
    · cases hs : p.sub with
      | none => simp [hs]
      | some u => simp [hs, h1]
  · intro p u s hdec hsub hjti hget
    have hcount := redisDel_count_zero store
      (getRefreshTokenKey (some u) (some s)) hget
    unfold invalidateRefreshToken
    rw [hdec]
    simp only [hsub, hjti]
    simp [hcount]

/-- C8, witness: the amended error cases evaluated on an undecodable token,
a token decoding to a nullish payload, a token whose payload lacks a
numeric `sub`, and a well-formed token whose session has no entry in an
empty store. -/
theorem C8_amended_invalidate_error_cases_witness :
    (invalidateRefreshToken [] (Token.malformed "garbage")).1 =
      .err (.database "Failed to invalidate refresh token") ∧
    (invalidateRefreshToken [] (Token.nullishPayload "header.bnVsbA.sig")).1 =
      .err (.invalidToken "Invalid token format") ∧
    (invalidateRefreshToken []
        (Token.signed ⟨none, some "sess", some 100, some 700⟩ "sig")).1 =
      .err (.invalidToken "Invalid token format") ∧
    (invalidateRefreshToken []
        (Token.signed ⟨some 7, some "sess", some 100, some 700⟩ "sig")).1 =
      .err (.invalidToken "Refresh token not found or already invalidated") :=
  ⟨(C8_amended_invalidate_error_cases [] (Token.malformed "garbage")).1
      ⟨"garbage", rfl⟩,
    (C8_amended_invalidate_error_cases []
        (Token.nullishPayload "header.bnVsbA.sig")).2.1 rfl,
    (C8_amended_invalidate_error_cases []
        (Token.signed ⟨none, some "sess", some 100, some 700⟩ "sig")).2.2.1
      ⟨none, some "sess", some 100, some 700⟩ rfl (Or.inl rfl),
    (C8_amended_invalidate_error_cases []
        (Token.signed ⟨some 7, some "sess", some 100, some 700⟩ "sig")).2.2.2
      ⟨some 7, some "sess", some 100, some 700⟩ 7 "sess" rfl rfl rfl rfl⟩

/-- C9: immediately after `generateTokenPair(userId)` succeeds, the access
token verifies to a payload with the same `userId`, and the refresh token
verifies (against the store the generation wrote) to a payload with the
same `userId` and the session id under which the pair was issued. -/
theorem C9_token_round_trip (secret : String) (store : RedisStore)
    (userId : Nat) (sessionId : Option String) (now : Nat) (fresh : String) :
    ∃ pair : TokenPair,
      (generateTokenPair secret store (some userId) sessionId now fresh).1 =
        .ok pair ∧
      (∃ p, verifyAccessToken secret pair.accessToken now = .ok p ∧
        p.sub = some userId) ∧
      (∃ q, verifyRefreshToken secret
          (generateTokenPair secret store (some userId) sessionId now fresh).2
          pair.refreshToken now = .ok q ∧
        q.sub = some userId ∧ q.jti = some (sessionId.getD fresh)) := by
  refine ⟨⟨Token.signed
      ⟨some userId, some (sessionId.getD fresh), some now,
        some (now + ACCESS_TOKEN_EXPIRY_SECONDS)⟩
      (mockSign secret
        ⟨some userId, some (sessionId.getD fresh), some now,
          some (now + ACCESS_TOKEN_EXPIRY_SECONDS)⟩),
    Token.signed
      ⟨some userId, some (sessionId.getD fresh), some now,
        some (now + REFRESH_TOKEN_EXPIRY_SECONDS)⟩
      (mockSign secret
        ⟨some userId, some (sessionId.getD fresh), some now,
          some (now + REFRESH_TOKEN_EXPIRY_SECONDS)⟩)⟩,
    rfl,
    ⟨⟨some userId, some (sessionId.getD fresh), some now,
      some (now + ACCESS_TOKEN_EXPIRY_SECONDS)⟩, ?_, rfl⟩,
    ⟨⟨some userId, some (sessionId.getD fresh), some now,
      some (now + REFRESH_TOKEN_EXPIRY_SECONDS)⟩, ?_, rfl, rfl⟩⟩
  · have hexp : ∀ e,
        (⟨some userId, some (sessionId.getD fresh), some now,
          some (now + ACCESS_TOKEN_EXPIRY_SECONDS)⟩ : JwtPayload).exp = some e →
        ¬ e < now := by
      intro e he
      simp only [Option.some.injEq] at he
      omega
    unfold verifyAccessToken
    rw [honoVerify_signed_self secret _ now hexp]
    simp [jsExpExpired_false _ now hexp]
  · have hexp : ∀ e,
        (⟨some userId, some (sessionId.getD fresh), some now,
          some (now + REFRESH_TOKEN_EXPIRY_SECONDS)⟩ : JwtPayload).exp = some e →
        ¬ e < now := by
      intro e he
      simp only [Option.some.injEq] at he
      omega
    unfold verifyRefreshToken
    rw [honoVerify_signed_self secret _ now hexp]
    simp only [jsExpExpired_false _ now hexp, Bool.false_eq_true, if_false]
    have hget := redisGet_setEx_self store
      (getRefreshTokenKey (some userId) (some (sessionId.getD fresh)))
      REFRESH_TOKEN_EXPIRY_SECONDS
      (⟨Token.signed
        ⟨some userId, some (sessionId.getD fresh), some now,
          some (now + REFRESH_TOKEN_EXPIRY_SECONDS)⟩
        (mockSign secret
          ⟨some userId, some (sessionId.getD fresh), some now,
            some (now + REFRESH_TOKEN_EXPIRY_SECONDS)⟩)⟩ : ArgonHash)
    rw [show (generateTokenPair secret store (some userId) sessionId now
        fresh).2 =
      redisSetEx store
        (getRefreshTokenKey (some userId) (some (sessionId.getD fresh)))
        REFRESH_TOKEN_EXPIRY_SECONDS
        ⟨Token.signed
          ⟨some userId, some (sessionId.getD fresh), some now,
            some (now + REFRESH_TOKEN_EXPIRY_SECONDS)⟩
          (mockSign secret
            ⟨some userId, some (sessionId.getD fresh), some now,
              some (now + REFRESH_TOKEN_EXPIRY_SECONDS)⟩)⟩ from rfl]
    rw [hget]
    simp [argonVerifyTok]

/-- The refresh-token payload issued at time 100 for user 7, session `sid`,
in the C2 counterexample. -/
def refreshPayloadC2 : JwtPayload :=
  ⟨some 7, some "sid", some 100, some (100 + REFRESH_TOKEN_EXPIRY_SECONDS)⟩

/-- The refresh token issued at time 100 in the C2 counterexample. -/
def oldTokenC2 : Token :=
  Token.signed refreshPayloadC2 (mockSign "secret" refreshPayloadC2)

/-- The store after issuing the C2 counterexample's token pair. -/
def storeC2 : RedisStore :=
  (generateTokenPair "secret" [] (some 7) none 100 "sid").2

/-- C2, counterexample: when the rotation happens in the same epoch second
as the original issuance, the deterministic signing makes the newly issued
refresh token byte-identical to the old one, so `refresh(old)` succeeds and
a subsequent `verifyRefreshToken(old)` still returns `ok` — the old token
remains usable, contradicting the claim as stated. -/
theorem C2_counterexample_same_second_rotation :
    (refresh "secret" storeC2 oldTokenC2 100 "freshid").1.isOk = true ∧
    verifyRefreshToken "secret"
        (refresh "secret" storeC2 oldTokenC2 100 "freshid").2 oldTokenC2 100 =
      .ok refreshPayloadC2 := by
  refine ⟨by decide, by decide⟩

/-- C2, amended: after `refresh(oldRefreshToken)` succeeds — at any point
where the newly issued refresh token is not byte-identical to the old one
(they coincide only when rotation re-signs the very same payload, i.e. in
the same epoch second) — verifying the old refresh token again fails with
the mismatch `InvalidTokenError`: the store now holds the hash of the new
token under the same session key. -/
theorem C2_amended_rotation_invalidation (secret : String)
    (store : RedisStore) (old : Token) (now : Nat) (fresh : String)
    (payload : JwtPayload) (s : String) (pair : TokenPair)
    (store' : RedisStore)
    (hver : verifyRefreshToken secret store old now = .ok payload)
    (hjti : payload.jti = some s)
    (href : refresh secret store old now fresh = (.ok pair, store'))
    (hne : pair.refreshToken ≠ old) :
    verifyRefreshToken secret store' old now =
      .err (.invalidToken "Refresh token mismatch") := by
  obtain ⟨hok, hnexp, -⟩ :=
    verifyRefreshToken_ok_elim secret store old now payload hver
  have hre : refresh secret store old now fresh =
      generateTokenPair secret (invalidateRefreshToken store old).2
        payload.sub payload.jti now fresh := by
    unfold refresh
    rw [hver]
  rw [hre, hjti] at href
  have hfst : Result.ok
      (⟨Token.signed
          ⟨payload.sub, some s, some now, some (now + ACCESS_TOKEN_EXPIRY_SECONDS)⟩
          (mockSign secret
            ⟨payload.sub, some s, some now,
              some (now + ACCESS_TOKEN_EXPIRY_SECONDS)⟩),
        Token.signed
          ⟨payload.sub, some s, some now, some (now + REFRESH_TOKEN_EXPIRY_SECONDS)⟩
          (mockSign secret
            ⟨payload.sub, some s, some now,
              some (now + REFRESH_TOKEN_EXPIRY_SECONDS)⟩)⟩ : TokenPair) =
      Result.ok pair := congrArg Prod.fst href
  have hsnd : store' =
      redisSetEx (invalidateRefreshToken store old).2
        (getRefreshTokenKey payload.sub (some s))
        REFRESH_TOKEN_EXPIRY_SECONDS
        ⟨Token.signed
          ⟨payload.sub, some s, some now, some (now + REFRESH_TOKEN_EXPIRY_SECONDS)⟩
          (mockSign secret
            ⟨payload.sub, some s, some now,
              some (now + REFRESH_TOKEN_EXPIRY_SECONDS)⟩)⟩ :=
    (congrArg Prod.snd href).symm
  have hpair : pair.refreshToken =
      Token.signed
        ⟨payload.sub, some s, some now, some (now + REFRESH_TOKEN_EXPIRY_SECONDS)⟩
        (mockSign secret
          ⟨payload.sub, some s, some now,
            some (now + REFRESH_TOKEN_EXPIRY_SECONDS)⟩) := by
    injection hfst with h
    rw [← h]
  subst hsnd
  exact verifyRefreshToken_mismatch secret _ old now payload
    ⟨Token.signed
      ⟨payload.sub, some s, some now, some (now + REFRESH_TOKEN_EXPIRY_SECONDS)⟩
      (mockSign secret
        ⟨payload.sub, some s, some now,
          some (now + REFRESH_TOKEN_EXPIRY_SECONDS)⟩)⟩
    hok hnexp (by rw [hjti]; exact redisGet_setEx_self _ _ _ _)
    (fun hcontra => hne (by rw [hpair]; exact hcontra))

/-- C2, witness: the amended theorem applied to a rotation one second after
issuance — the new refresh token differs, and verifying the old one against
the post-refresh store yields the mismatch `InvalidTokenError`. -/
theorem C2_amended_rotation_invalidation_witness :
    verifyRefreshToken "secret"
        (refresh "secret" storeC2 oldTokenC2 101 "freshid").2 oldTokenC2 101 =
      .err (.invalidToken "Refresh token mismatch") :=
  C2_amended_rotation_invalidation "secret" storeC2 oldTokenC2 101 "freshid"
    refreshPayloadC2 "sid"
    ⟨Token.signed ⟨some 7, some "sid", some 101, some (101 + ACCESS_TOKEN_EXPIRY_SECONDS)⟩
        (mockSign "secret"
          ⟨some 7, some "sid", some 101, some (101 + ACCESS_TOKEN_EXPIRY_SECONDS)⟩),
      Token.signed ⟨some 7, some "sid", some 101, some (101 + REFRESH_TOKEN_EXPIRY_SECONDS)⟩
        (mockSign "secret"
          ⟨some 7, some "sid", some 101, some (101 + REFRESH_TOKEN_EXPIRY_SECONDS)⟩)⟩
    (refresh "secret" storeC2 oldTokenC2 101 "freshid").2
    (by decide) rfl (by decide) (by decide)

/-- Membership characterization of the existing-record query: a child id is
reported as existing exactly when some row of the table carries the item and
that space id. -/
theorem mem_findExistingSpaceIds (itemId : Nat) (children : List Nat)
    (db : List InventoryRow) (ch : Nat) (hne : ¬ children.isEmpty = true) :
    ch ∈ findExistingSpaceIds itemId children db ↔
      ∃ r ∈ db, r.itemId = itemId ∧ r.spaceId = some ch ∧ ch ∈ children := by
  unfold findExistingSpaceIds
  rw [if_neg hne]
  simp only [List.mem_filterMap]
  constructor
  · rintro ⟨r, hr, hfr⟩
    cases hs : r.spaceId with
    | none => rw [hs] at hfr; simp at hfr
    | some s2 =>
      rw [hs] at hfr
      have hfr' : (if r.itemId = itemId ∧ children.contains s2 = true
          then some s2 else none) = some ch := hfr
      by_cases hc : r.itemId = itemId ∧ children.contains s2 = true
      · rw [if_pos hc] at hfr'
        obtain rfl : s2 = ch := by simpa using hfr'
        refine ⟨r, hr, hc.1, hs, ?_⟩
        simpa using hc.2
      · rw [if_neg hc] at hfr'
        exact absurd hfr' (by simp)
  · rintro ⟨r, hr, hitem, hspace, hmem⟩
    exact ⟨r, hr, by simp [hspace, hitem, hmem]⟩

/-- C6: propagation is idempotent — whenever a propagation call succeeds,
running it again over the table it produced creates no inventory row and
reports `updatedCount = 0`, because every descendant space now already has
a record for the item. -/
theorem C6_propagation_idempotent (spaces : List SpaceRow)
    (db : List InventoryRow) (item : ItemForPropagation) (c : Nat)
    (db1 : List InventoryRow)
    (h : propagateToChildSpaces spaces db item = some (c, db1)) :
    propagateToChildSpaces spaces db1 item = some (0, db1) := by
  unfold propagateToChildSpaces at h ⊢
  cases hsid : item.spaceId with
  | none =>
    rw [hsid] at h
  | some sid =>
    rw [hsid] at h
    have h' : (if sid = 0 then some (0, db)
        else
          match findChildrenIds spaces sid with
          | none => none
          | some childrenIds =>
            if childrenIds.isEmpty = true then some (0, db)
            else
              if (newInventoriesFor item childrenIds db).isEmpty = true then
                some (0, db)
              else some (createBatch (newInventoriesFor item childrenIds db) db)) =
        some (c, db1) := h
    show (if sid = 0 then some (0, db1)
        else
          match findChildrenIds spaces sid with
          | none => none
          | some childrenIds =>
            if childrenIds.isEmpty = true then some (0, db1)
            else
              if (newInventoriesFor item childrenIds db1).isEmpty = true then
                some (0, db1)
              else
                some (createBatch (newInventoriesFor item childrenIds db1) db1)) =
      some (0, db1)
    by_cases h0 : sid = 0
    · rw [if_pos h0]
    · rw [if_neg h0] at h' ⊢
      cases hch : findChildrenIds spaces sid with
      | none => rw [hch] at h'; simp at h'
      | some children =>
        rw [hch] at h'
        have h2 : (if children.isEmpty = true then some (0, db)
            else
              if (newInventoriesFor item children db).isEmpty = true then
                some (0, db)
              else some (createBatch (newInventoriesFor item children db) db)) =
            some (c, db1) := h'
        show (if children.isEmpty = true then some (0, db1)
            else
              if (newInventoriesFor item children db1).isEmpty = true then
                some (0, db1)
              else some (createBatch (newInventoriesFor item children db1) db1)) =
          some (0, db1)
        by_cases hemp : children.isEmpty = true
        · rw [if_pos hemp]
        · rw [if_neg hemp] at h2 ⊢
          by_cases hni : (newInventoriesFor item children db).isEmpty = true
          · rw [if_pos hni] at h2
            obtain ⟨rfl, rfl⟩ : 0 = c ∧ db = db1 := by simpa using h2
            rw [if_pos hni]
          · rw [if_neg hni] at h2
            have hcb : createBatch (newInventoriesFor item children db) db =
                ((newInventoriesFor item children db).length,
                  db ++ (newInventoriesFor item children db).map
                    batchDataToRow) := by
              unfold createBatch
              rw [if_neg hni]
            rw [hcb] at h2
            obtain ⟨-, hdb⟩ : (newInventoriesFor item children db).length = c ∧
                db ++ (newInventoriesFor item children db).map batchDataToRow =
                  db1 := by simpa using h2
            subst hdb
            have hAll : ∀ ch ∈ children, ch ∈ findExistingSpaceIds item.id
                children (db ++ (newInventoriesFor item children db).map
                  batchDataToRow) := by
              intro ch hchmem
              rw [mem_findExistingSpaceIds item.id children _ ch hemp]
              by_cases hex : ch ∈ findExistingSpaceIds item.id children db
              · obtain ⟨r, hr, hri, hrs, hrc⟩ :=
                  (mem_findExistingSpaceIds item.id children db ch hemp).mp hex
                exact ⟨r, List.mem_append_left _ hr, hri, hrs, hrc⟩
              · refine ⟨batchDataToRow (propagationBatchData item ch),
                  List.mem_append_right _ ?_, rfl, rfl, hchmem⟩
                refine List.mem_map_of_mem batchDataToRow ?_
                unfold newInventoriesFor
                refine List.mem_map_of_mem (propagationBatchData item) ?_
                rw [List.mem_filter]
                refine ⟨hchmem, ?_⟩
                simpa using hex
            have hkey : newInventoriesFor item children
                (db ++ (newInventoriesFor item children db).map
                  batchDataToRow) = [] := by
              rw [newInventoriesFor]
              rw [List.map_eq_nil_iff, List.filter_eq_nil_iff]
              intro ch hchmem
              simp only [decide_not, Bool.not_eq_true', Bool.not_eq_false]
              simpa using hAll ch hchmem
            rw [hkey]
            simp

/-- C6, witness: the idempotence theorem applied to the C5 scenario — the
second propagation over the two freshly created rows reports zero and
leaves the table unchanged. -/
theorem C6_propagation_idempotent_witness :
    propagateToChildSpaces spaces5 [row5space2, row5space3] item5 =
      some (0, [row5space2, row5space3]) :=
  C6_propagation_idempotent spaces5 [] item5 2 [row5space2, row5space3]
    (by decide)

end Bodo
